/-
Verification of the twilio_number_search data-synchronization pipeline.

Shallow embedding of `api/app/services/twilio_client.py`,
`api/app/tasks/sync_task.py`, and the routers
`api/app/routers/numbers.py`, `api/app/routers/sync.py`,
`api/app/routers/regulations.py`.
-/
import Mathlib

namespace TwilioSearch

/-! ## Remote adapter: `TwilioClient._make_request`

The adapter issues one HTTP attempt per recursion level.  We model the
network as a function `env : Nat → HttpResult` giving the result the
transport layer produces on attempt number `i` of one logical request
(the source retries the *same* method/url/kwargs, so the request itself
never changes, only the attempt counter does).  A response carries its
status code and the parsed `Retry-After` header when present; a
network-level fault (`httpx.RequestError`: connection error, timeout)
carries its message. -/

inductive HttpResult where
  | resp (status : Nat) (retryAfter : Option Nat) : HttpResult
  | netErr (msg : String) : HttpResult
deriving DecidableEq, Repr

/-- Outcome of `_make_request`: a returned response (after
`raise_for_status` did not fire), a `TwilioRateLimitError`, or a
`TwilioAPIError`. -/
inductive ReqOutcome where
  | ok (status : Nat) : ReqOutcome
  | rateLimitErr : ReqOutcome
  | apiErr : ReqOutcome
deriving DecidableEq, Repr

/-- Default `max_retries` of `TwilioClient.__init__` (the constructor is
always called without an explicit override in this repository). -/
def defaultMaxRetries : Nat := 3

/-- Model of `TwilioClient._make_request(method, url, retry_count)`.

Returns the outcome together with the list of `asyncio.sleep` durations
performed, in order.  Mirrors the source:
* status 429: `retry_after = int(headers.get("Retry-After", "60"))`;
  if `retry_count < max_retries`, sleep `retry_after` and recurse with
  `retry_count + 1`; else raise `TwilioRateLimitError`;
* any other status: `raise_for_status` raises for `status >= 400`,
  converted to `TwilioAPIError`; otherwise the response is returned;
* network error (`httpx.RequestError`): if `retry_count < max_retries`,
  sleep `2 ** retry_count` and recurse with `retry_count + 1`; else
  raise `TwilioAPIError`. -/
def makeRequest (env : Nat → HttpResult) (maxRetries : Nat) :
    Nat → ReqOutcome × List Nat
  | retryCount =>
    match env retryCount with
    | HttpResult.resp 429 ra =>
      let retryAfter := ra.getD 60
      if h : retryCount < maxRetries then
        let rest := makeRequest env maxRetries (retryCount + 1)
        (rest.1, retryAfter :: rest.2)
      else
        (ReqOutcome.rateLimitErr, [])
    | HttpResult.resp s _ =>
      if 400 ≤ s then (ReqOutcome.apiErr, []) else (ReqOutcome.ok s, [])
    | HttpResult.netErr _ =>
      if h : retryCount < maxRetries then
        let rest := makeRequest env maxRetries (retryCount + 1)
        (rest.1, 2 ^ retryCount :: rest.2)
      else
        (ReqOutcome.apiErr, [])
termination_by retryCount => maxRetries - retryCount
decreasing_by
  all_goals omega

/-! ## Country enumeration: `TwilioClient.list_countries`

The loop fetches the current URL, appends `data.get("countries", [])`,
and continues with `data.get("next_page_uri")` while that pointer is
present.  We model the provider as the list of successive fetch results
(the result of each `_make_request` + JSON parse, in the order the loop
would issue them); a page's items are kept opaque. -/

structure CountriesPage where
  countries : List String
  next_page_uri : Option String
deriving DecidableEq, Repr

/-- Model of `TwilioClient.list_countries`: walk the responses,
concatenating `countries` in arrival order; stop when `next_page_uri`
is absent; a failed page fetch propagates, discarding everything
collected so far.  An exhausted response list while a next page is
still expected is a transport fault as well. -/
def list_countries : List (Except String CountriesPage) →
    Except String (List String)
  | [] => Except.error "no response"
  | r :: rest =>
    match r with
    | Except.error e => Except.error e
    | Except.ok page =>
      match page.next_page_uri with
      | none => Except.ok page.countries
      | some _ => (list_countries rest).map (page.countries ++ ·)

/-- A chain of page responses in which every page but the last carries a
`next_page_uri` and the last does not: the shape the provider produces
for a complete paginated listing. -/
def mkLinkedPages : List (List String) → List (Except String CountriesPage)
  | [] => []
  | [c] => [Except.ok ⟨c, none⟩]
  | c :: rest => Except.ok ⟨c, some "/page"⟩ :: mkLinkedPages rest

/-- A chain of page responses that all point onward, followed by a
failing fetch. -/
def mkPagesThenFail (chunks : List (List String)) (e : String) :
    List (Except String CountriesPage) :=
  chunks.map (fun c => Except.ok ⟨c, some "/page"⟩) ++ [Except.error e]

/-! ## Number-type extraction: `TwilioClient.extract_number_types` -/

structure NumberTypeFlags where
  local_ : Bool
  toll_free : Bool
  mobile : Bool
  national : Bool
  voip : Bool
  shared_cost : Bool
  machine_to_machine : Bool
deriving DecidableEq, Repr

/-- The country-detail payload as used by the pipeline: the optional
`country` display name, the optional `beta` flag and the key set of the
optional `subresource_uris` map. -/
structure CountryDetailPayload where
  country : Option String
  beta : Option Bool
  subresource_uris : Option (List String)
deriving DecidableEq, Repr

/-- Model of `TwilioClient.extract_number_types`: each flag is true iff
the correspondingly named key is present in `subresource_uris`
(`{}` when the map is absent). -/
def extract_number_types (d : CountryDetailPayload) : NumberTypeFlags :=
  let uris := d.subresource_uris.getD []
  { local_ := uris.contains "local"
    toll_free := uris.contains "toll_free"
    mobile := uris.contains "mobile"
    national := uris.contains "national"
    voip := uris.contains "voip"
    shared_cost := uris.contains "shared_cost"
    machine_to_machine := uris.contains "machine_to_machine" }

/-! ## Number-type sync: `sync_task.py::sync_twilio_number_types` -/

/-- The per-country dict `process_country` returns on success. -/
structure CountryData where
  country_code : String
  country : String
  beta : Bool
  types : NumberTypeFlags
deriving DecidableEq, Repr

/-- Job status values stored in `sync_jobs[job_id]["status"]`. -/
inductive JobStatus where
  | in_progress : JobStatus
  | completed : JobStatus
  | failed : JobStatus
deriving DecidableEq, Repr

/-- The job record of the in-memory `sync_jobs` registry, as it stands
when the task returns. -/
structure SyncJob where
  status : JobStatus
  countries_processed : Nat
  countries_total : Option Nat
  error : Option String
deriving DecidableEq, Repr

/-- Model of the inner `process_country` worker: skip when
`country.get("country_code")` is absent or falsy (empty string);
otherwise fetch the details (the `fetch` argument is the detail-fetch
result for this country) and build the upsert dict; any exception is
caught and turned into `None`. -/
def process_country (country_code : Option String)
    (fetch : Except String CountryDetailPayload) : Option CountryData :=
  match country_code with
  | none => none
  | some cc =>
    if cc = "" then none
    else
      match fetch with
      | Except.error _ => none
      | Except.ok d =>
        some { country_code := cc
               country := d.country.getD ""
               beta := d.beta.getD false
               types := extract_number_types d }

/-- One enumerated country together with the result its detail fetch
would produce. -/
structure CountryFetchInput where
  country_code : Option String
  fetch : Except String CountryDetailPayload
deriving Repr

/-- A worker of the number-type fan-out fails to contribute a record:
its country has no (truthy) `country_code`, or its detail fetch raised
(the worker catches the exception and returns `None`). -/
def CountryFetchInput.fails (i : CountryFetchInput) : Bool :=
  match i.country_code, i.fetch with
  | none, _ => true
  | some _, Except.error _ => true
  | some cc, Except.ok _ => cc == ""

/-- Model of `sync_twilio_number_types`: the enumeration either raises
(job marked failed, error recorded, exception re-raised — first
component `error`) or yields the countries; then the fan-out runs one
`process_country` per country, the aggregate keeps the non-`None`
results, and the job is finalized with
`countries_processed = len(valid_results)`. -/
def sync_twilio_number_types
    (enum : Except String (List CountryFetchInput)) :
    Except String (List CountryData) × SyncJob :=
  match enum with
  | Except.error e =>
    (Except.error e,
      { status := JobStatus.failed, countries_processed := 0
        countries_total := none, error := some e })
  | Except.ok inputs =>
    let results := inputs.map fun i => process_country i.country_code i.fetch
    let valid_results := results.filterMap id
    (Except.ok valid_results,
      { status := JobStatus.completed
        countries_processed := valid_results.length
        countries_total := some inputs.length, error := none })

/-! ## Regulation sync: `sync_task.py::sync_twilio_regulations` -/

/-- A regulation as parsed from the provider response (`reg.get(...)`
fields used by the sync; `requirements` is passed through opaquely). -/
structure RawRegulation where
  sid : Option String
  friendly_name : Option String
  iso_country : Option String
  number_type : Option String
  requirements : Option String
  url : Option String
deriving DecidableEq, Repr

/-- The dict `process_country_regulations` builds for each regulation,
ready for `upsert_regulations_to_db`. -/
structure RegUpsertDict where
  sid : Option String
  friendly_name : Option String
  iso_country : Option String
  number_type : Option String
  end_user_type : Option String
  requirements : Option String
  url : Option String
deriving DecidableEq, Repr

/-- The per-regulation mapping inside `process_country_regulations`:
field-by-field `reg.get(...)` with `end_user_type` pinned to
`"business"`. -/
def regulation_to_upsert_dict (reg : RawRegulation) : RegUpsertDict :=
  { sid := reg.sid
    friendly_name := reg.friendly_name
    iso_country := reg.iso_country
    number_type := reg.number_type
    end_user_type := some "business"
    requirements := reg.requirements
    url := reg.url }

/-- One enumerated country together with the result its regulation
listing (`client.list_regulations`) would produce. -/
structure RegulationFetchInput where
  country_code : Option String
  fetch : Except String (List RawRegulation)
deriving Repr

/-- Model of the inner `process_country_regulations` worker: skip (empty
list) when `country_code` is absent or falsy; otherwise list the
country's regulations and map them to upsert dicts; any exception is
caught and turned into `[]`. -/
def process_country_regulations (country_code : Option String)
    (fetch : Except String (List RawRegulation)) : List RegUpsertDict :=
  match country_code with
  | none => []
  | some cc =>
    if cc = "" then []
    else
      match fetch with
      | Except.error _ => []
      | Except.ok regs => regs.map regulation_to_upsert_dict

/-- A worker of the regulation fan-out fails to contribute records. -/
def RegulationFetchInput.fails (i : RegulationFetchInput) : Bool :=
  match i.country_code, i.fetch with
  | none, _ => true
  | some _, Except.error _ => true
  | some cc, Except.ok _ => cc == ""

/-- Model of `sync_twilio_regulations`: enumeration, fan-out of
`process_country_regulations`, aggregation by `extend` (a left fold of
appends), and finalization with
`countries_processed = len(countries)`. -/
def sync_twilio_regulations
    (enum : Except String (List RegulationFetchInput)) :
    Except String (List RegUpsertDict) × SyncJob :=
  match enum with
  | Except.error e =>
    (Except.error e,
      { status := JobStatus.failed, countries_processed := 0
        countries_total := none, error := some e })
  | Except.ok inputs =>
    let results := inputs.map fun i =>
      process_country_regulations i.country_code i.fetch
    let all_regulations := results.foldl (· ++ ·) []
    (Except.ok all_regulations,
      { status := JobStatus.completed
        countries_processed := inputs.length
        countries_total := some inputs.length, error := none })

/-! ## Job status lifecycle: `routers/sync.py::run_sync_task` around the
sync tasks

`run_sync_task` (and its regulations twin, of identical structure) runs
the sync task, then upserts the returned data when non-empty; on any
exception it marks the job failed.  The task itself sets the status to
`in_progress` at creation and `completed` on success; its inner `try`
ends in `finally: await client.close()`, so `close()` may still raise
*after* the status became `completed`, in which case the task's own
`except Exception` downgrades the status to `failed` (and re-raises,
after which the wrapper assigns `failed` once more); any exception
before `completed` takes the same except path without the `completed`
assignment.  The trace below records every value the `status` field is
assigned, in order, as a function of whether the task body succeeds,
whether the `finally` `client.close()` succeeds, whether the returned
data is non-empty, and whether the upsert succeeds. -/
def runSyncTaskStatusTrace (taskOk closeOk dataNonempty upsertOk : Bool) :
    List JobStatus :=
  if taskOk then
    if closeOk then
      if dataNonempty && !upsertOk then
        [JobStatus.in_progress, JobStatus.completed, JobStatus.failed]
      else
        [JobStatus.in_progress, JobStatus.completed]
    else
      [JobStatus.in_progress, JobStatus.completed, JobStatus.failed,
        JobStatus.failed]
  else
    [JobStatus.in_progress, JobStatus.failed, JobStatus.failed]

/-- The status transitions the combined task + wrapper can actually
perform (`failed → failed` is the wrapper re-assigning, after the
re-raise, the value the task's own handler already wrote). -/
def allowedTransition : JobStatus → JobStatus → Bool
  | JobStatus.in_progress, JobStatus.completed => true
  | JobStatus.in_progress, JobStatus.failed => true
  | JobStatus.completed, JobStatus.failed => true
  | JobStatus.failed, JobStatus.failed => true
  | _, _ => false

/-- Whether the assignment sequence `l` ever moves from status `a`
directly to status `b`. -/
def hasTransition (l : List JobStatus) (a b : JobStatus) : Bool :=
  (l.zip l.tail).any fun p => p.1 == a && p.2 == b

/-- Every adjacent pair of the assignment sequence is an allowed
transition. -/
def validTransitions (l : List JobStatus) : Bool :=
  (l.zip l.tail).all fun p => allowedTransition p.1 p.2

/-! ## Upsert writers: `sync_task.py::upsert_countries_to_db` and
`upsert_regulations_to_db`

Both return the batch of row values they hand to the single
`INSERT ... ON CONFLICT DO UPDATE` statement; `none` models "no write
issued" and `Except.error k` models an uncaught `KeyError(k)` (no write
issued either, since the statement is only built after the loop). -/

/-- Row values for `country_number_types` as built by
`upsert_countries_to_db`. -/
structure CountryRowValues where
  country_code : String
  country : String
  beta : Bool
  local_ : Bool
  toll_free : Bool
  mobile : Bool
  national : Bool
  voip : Bool
  shared_cost : Bool
  machine_to_machine : Bool
deriving DecidableEq, Repr

/-- A country dict as it may reach `upsert_countries_to_db`; every field
the writer reads with bracket access, each possibly missing. -/
structure CountryDict where
  country_code : Option String
  country : Option String
  beta : Option Bool
  local_ : Option Bool
  toll_free : Option Bool
  mobile : Option Bool
  national : Option Bool
  voip : Option Bool
  shared_cost : Option Bool
  machine_to_machine : Option Bool
deriving DecidableEq, Repr

/-- A country dict carries every key the writer reads. -/
def CountryDict.complete (c : CountryDict) : Bool :=
  c.country_code.isSome && c.country.isSome && c.beta.isSome &&
    c.local_.isSome && c.toll_free.isSome && c.mobile.isSome &&
    c.national.isSome && c.voip.isSome && c.shared_cost.isSome &&
    c.machine_to_machine.isSome

/-- Bracket access `country["key"]`: the first missing key raises
`KeyError(key)`, in the access order of the source. -/
def countryRowValues (c : CountryDict) : Except String CountryRowValues :=
  match c.country_code with
  | none => Except.error "country_code"
  | some country_code =>
  match c.country with
  | none => Except.error "country"
  | some country =>
  match c.beta with
  | none => Except.error "beta"
  | some beta =>
  match c.local_ with
  | none => Except.error "local"
  | some local_ =>
  match c.toll_free with
  | none => Except.error "toll_free"
  | some toll_free =>
  match c.mobile with
  | none => Except.error "mobile"
  | some mobile =>
  match c.national with
  | none => Except.error "national"
  | some national =>
  match c.voip with
  | none => Except.error "voip"
  | some voip =>
  match c.shared_cost with
  | none => Except.error "shared_cost"
  | some shared_cost =>
  match c.machine_to_machine with
  | none => Except.error "machine_to_machine"
  | some machine_to_machine =>
    Except.ok
      { country_code := country_code, country := country,
        beta := beta, local_ := local_, toll_free := toll_free,
        mobile := mobile, national := national, voip := voip,
        shared_cost := shared_cost,
        machine_to_machine := machine_to_machine }

/-- The `for country in countries_data` loop of
`upsert_countries_to_db`: append row values in order, propagating the
first `KeyError`. -/
def collectCountryValues : List CountryDict →
    Except String (List CountryRowValues)
  | [] => Except.ok []
  | c :: rest =>
    match countryRowValues c with
    | Except.error k => Except.error k
    | Except.ok v =>
      match collectCountryValues rest with
      | Except.error k => Except.error k
      | Except.ok vs => Except.ok (v :: vs)

/-- Model of `upsert_countries_to_db`: empty input returns without a
write; otherwise the loop builds all row values (any missing key raises
`KeyError` before the statement exists) and one batched upsert of them
is executed. -/
def upsert_countries_to_db (countries_data : List CountryDict) :
    Except String (Option (List CountryRowValues)) :=
  if countries_data.isEmpty then Except.ok none
  else (collectCountryValues countries_data).map some

/-- Row values for `regulations` as built by
`upsert_regulations_to_db`. -/
structure RegulationRowValues where
  sid : String
  friendly_name : Option String
  iso_country : Option String
  number_type : Option String
  end_user_type : String
  requirements : Option String
  url : Option String
deriving DecidableEq, Repr

/-- Mirror of `if not reg.get("sid"): continue` — a record with an absent or
empty `sid` is skipped; otherwise the row values are built with
`reg.get(...)` (and `end_user_type` defaulting to `"business"`). -/
def regRowValues (reg : RegUpsertDict) : Option RegulationRowValues :=
  match reg.sid with
  | none => none
  | some s =>
    if s = "" then none
    else
      some { sid := s
             friendly_name := reg.friendly_name
             iso_country := reg.iso_country
             number_type := reg.number_type
             end_user_type := reg.end_user_type.getD "business"
             requirements := reg.requirements
             url := reg.url }

/-- A regulation record carries a truthy identifier. -/
def RegUpsertDict.hasIdentifier (reg : RegUpsertDict) : Bool :=
  match reg.sid with
  | none => false
  | some s => !(s == "")

/-- Model of `upsert_regulations_to_db`: empty input returns without a
write; records without a truthy `sid` are skipped; if nothing is left,
no write is issued; otherwise one batched upsert of the surviving row
values is executed. -/
def upsert_regulations_to_db (regulations_data : List RegUpsertDict) :
    Option (List RegulationRowValues) :=
  if regulations_data.isEmpty then none
  else
    let values := regulations_data.filterMap regRowValues
    if values.isEmpty then none
    else some values

/-! ## Regulation query: `routers/regulations.py::get_regulations`

The stored tables are modelled as lists of rows; the SQLAlchemy
`where` clauses become filters applied in the order the query is
built. -/

/-- A stored `regulations` row (`models.Regulation`; `end_user_type` is
a non-nullable column). -/
structure RegulationRow where
  sid : String
  friendly_name : Option String
  iso_country : Option String
  number_type : Option String
  end_user_type : String
  requirements : Option String
  url : Option String
deriving DecidableEq, Repr

/-- A stored `country_number_types` row (`models.CountryNumberTypes`). -/
structure CountryNumberTypesRow where
  country_code : String
  country : String
  beta : Bool
  local_ : Bool
  toll_free : Bool
  mobile : Bool
  national : Bool
  voip : Bool
  shared_cost : Bool
  machine_to_machine : Bool
deriving DecidableEq, Repr

/-- The `available_types` list built from the `type_mapping` dict, in
its insertion order. -/
def availableNumberTypes (ct : CountryNumberTypesRow) : List String :=
  (if ct.local_ then ["local"] else []) ++
  (if ct.toll_free then ["toll_free"] else []) ++
  (if ct.mobile then ["mobile"] else []) ++
  (if ct.national then ["national"] else []) ++
  (if ct.voip then ["voip"] else []) ++
  (if ct.shared_cost then ["shared_cost"] else []) ++
  (if ct.machine_to_machine then ["machine_to_machine"] else [])

/-- Python `country_code.upper()` (country codes are ASCII), written
over the character list so that concrete codes evaluate. -/
def strUpper (s : String) : String :=
  ⟨s.data.map Char.toUpper⟩

/-- Mirror of `Regulation.number_type.in_(available_types) OR
Regulation.number_type.is_(None)`. -/
def regMatchesAvailable (avail : List String) (r : RegulationRow) : Bool :=
  match r.number_type with
  | none => true
  | some t => avail.contains t

/-- Model of `get_regulations` (the query-building and filtering part;
the 404 raised on an empty result concerns presentation only): upper-case
the country code, keep the country's `business` rows, apply the optional
`number_type` filter, and under `only_available_types` cross-reference
the `CountryNumberTypes` row — when present, keep rows whose type is
among the available ones or unset (only unset when nothing is
available); when absent, fall back to the unfiltered list. -/
def get_regulations (db : List RegulationRow)
    (countryTypes : List CountryNumberTypesRow) (country_code : String)
    (number_type : Option String) (only_available_types : Bool) :
    List RegulationRow :=
  let cc := strUpper country_code
  let q := db.filter fun r =>
    r.iso_country == some cc && r.end_user_type == "business"
  let q := match number_type with
    | some nt => q.filter fun r => r.number_type == some nt
    | none => q
  if only_available_types then
    match countryTypes.find? (fun ct => ct.country_code == cc) with
    | some ct =>
      let avail := availableNumberTypes ct
      if avail.isEmpty then q.filter fun r => r.number_type.isNone
      else q.filter (regMatchesAvailable avail)
    | none => q
  else q

/-! ## Outbound regulation query parameters:
`TwilioClient.list_regulations` -/

/-- The query-parameter dict `list_regulations` builds before its first
request, in insertion order.  The method has no end-user-type
parameter: `EndUserType` is pinned to `"business"`
(`str(include_constraints).lower()` renders the boolean). -/
def list_regulations_params (country_code : String)
    (number_type : Option String) (include_constraints : Bool) :
    List (String × String) :=
  let params := [("EndUserType", "business"),
    ("IsoCountry", country_code),
    ("IncludeConstraints", if include_constraints then "true" else "false")]
  match number_type with
  | some nt => params ++ [("NumberType", nt)]
  | none => params

/-! ## On-demand live search: `routers/numbers.py::search_numbers`

The handler's `try` body may raise.  Python exception classes here are
`TwilioRateLimitError <: TwilioAPIError <: Exception`; any other
exception is only an `Exception`.  The `except` clauses are tried in
source order and the first clause whose class is a superclass of the
raised exception wins. -/

/-- The exception raised inside the `search_numbers` try body. -/
inductive SearchFault where
  | rateLimitError (msg : String) : SearchFault
  | apiError (msg : String) : SearchFault
  | otherError (msg : String) : SearchFault
deriving DecidableEq, Repr

/-- Python `isinstance(e, TwilioAPIError)`: true for the base class and
its subclass `TwilioRateLimitError`. -/
def SearchFault.isTwilioAPIError : SearchFault → Bool
  | SearchFault.rateLimitError _ => true
  | SearchFault.apiError _ => true
  | SearchFault.otherError _ => false

/-- Python `isinstance(e, TwilioRateLimitError)`. -/
def SearchFault.isTwilioRateLimitError : SearchFault → Bool
  | SearchFault.rateLimitError _ => true
  | SearchFault.apiError _ => false
  | SearchFault.otherError _ => false

/-- HTTP status `search_numbers` answers when its try body raises `f`.
Mirrors the source's `except` clause order exactly:
`except TwilioAPIError` (→ 400) comes first, then
`except TwilioRateLimitError` (→ 429), then `except Exception` (→ 500). -/
def searchNumbersErrorStatus (f : SearchFault) : Nat :=
  if f.isTwilioAPIError then 400
  else if f.isTwilioRateLimitError then 429
  else 500

/-! ## Concrete inputs used by witnesses and counterexamples -/

/-- A raw regulation as the provider would return it. -/
def rawRegCA : RawRegulation :=
  { sid := some "RN10000000000000000000000000000000"
    friendly_name := some "Canada: Local"
    iso_country := some "CA"
    number_type := some "local"
    requirements := some "{}"
    url := some "https://numbers.twilio.com/v2/RegulatoryCompliance" }

/-- Regulation-sync fan-out input with two countries of which the first
worker fails (its regulation fetch raises). -/
def regCexInputs : List RegulationFetchInput :=
  [{ country_code := some "US", fetch := Except.error "HTTP 500" },
   { country_code := some "CA", fetch := Except.ok [rawRegCA] }]

/-- A complete country dict. -/
def goodCountryDict : CountryDict :=
  { country_code := some "US", country := some "United States"
    beta := some false, local_ := some true, toll_free := some true
    mobile := some true, national := some false, voip := some true
    shared_cost := some false, machine_to_machine := some false }

/-- A country dict missing the `beta` key. -/
def badCountryDict : CountryDict :=
  { country_code := some "CA", country := some "Canada"
    beta := none, local_ := some true, toll_free := some true
    mobile := some true, national := some false, voip := some false
    shared_cost := some false, machine_to_machine := some false }

/-- A regulation upsert dict lacking its identifier. -/
def sidlessRegDict : RegUpsertDict :=
  { sid := none, friendly_name := some "nameless"
    iso_country := some "US", number_type := some "mobile"
    end_user_type := some "business", requirements := none, url := none }

/-- A valid regulation upsert dict. -/
def goodRegDict : RegUpsertDict :=
  regulation_to_upsert_dict rawRegCA

/-- Stored regulation rows for the query witnesses: one mobile, one
toll-free, one with unset type, all for DE, plus one for FR. -/
def demoRegulationRows : List RegulationRow :=
  [{ sid := "RN1", friendly_name := some "DE mobile"
     iso_country := some "DE", number_type := some "mobile"
     end_user_type := "business", requirements := none, url := none },
   { sid := "RN2", friendly_name := some "DE toll-free"
     iso_country := some "DE", number_type := some "toll_free"
     end_user_type := "business", requirements := none, url := none },
   { sid := "RN3", friendly_name := some "DE general"
     iso_country := some "DE", number_type := none
     end_user_type := "business", requirements := none, url := none },
   { sid := "RN4", friendly_name := some "FR mobile"
     iso_country := some "FR", number_type := some "mobile"
     end_user_type := "business", requirements := none, url := none }]

/-- A stored `country_number_types` row for DE with only `mobile` set
among the seven type flags. -/
def demoMobileOnlyDE : CountryNumberTypesRow :=
  { country_code := "DE", country := "Germany", beta := false
    local_ := false, toll_free := false, mobile := true, national := false
    voip := false, shared_cost := false, machine_to_machine := false }

/-! ## Theorems -/

/-- Unfolding: a 429 response with retries remaining sleeps the
`Retry-After` duration (60 when absent) and retries the same request. -/
theorem makeRequest_429_retry (env : Nat → HttpResult) (m r : Nat)
    (ra : Option Nat) (henv : env r = HttpResult.resp 429 ra) (h : r < m) :
    makeRequest env m r =
      ((makeRequest env m (r + 1)).1,
        ra.getD 60 :: (makeRequest env m (r + 1)).2) := by
  rw [makeRequest, henv]
  simp [h]

/-- Unfolding: a 429 response with the retry ceiling exhausted raises
`TwilioRateLimitError`. -/
theorem makeRequest_429_exhausted (env : Nat → HttpResult) (m r : Nat)
    (ra : Option Nat) (henv : env r = HttpResult.resp 429 ra) (h : ¬ r < m) :
    makeRequest env m r = (ReqOutcome.rateLimitErr, []) := by
  rw [makeRequest, henv]
  simp [h]

/-- Unfolding: a network error with retries remaining sleeps
`2 ^ retry_count` and retries. -/
theorem makeRequest_netErr_retry (env : Nat → HttpResult) (m r : Nat)
    (msg : String) (henv : env r = HttpResult.netErr msg) (h : r < m) :
    makeRequest env m r =
      ((makeRequest env m (r + 1)).1,
        2 ^ r :: (makeRequest env m (r + 1)).2) := by
  rw [makeRequest, henv]
  simp [h]

/-- Unfolding: a network error with the retry ceiling exhausted raises
`TwilioAPIError`. -/
theorem makeRequest_netErr_exhausted (env : Nat → HttpResult) (m r : Nat)
    (msg : String) (henv : env r = HttpResult.netErr msg) (h : ¬ r < m) :
    makeRequest env m r = (ReqOutcome.apiErr, []) := by
  rw [makeRequest, henv]
  simp [h]

/-- If every attempt yields a 429 response, the request ends in
`TwilioRateLimitError` (induction on the remaining retry budget). -/
theorem makeRequest_all429_aux (env : Nat → HttpResult)
    (h : ∀ i, ∃ ra, env i = HttpResult.resp 429 ra) :
    ∀ k m r, m - r ≤ k → (makeRequest env m r).1 = ReqOutcome.rateLimitErr := by
  intro k
  induction k with
  | zero =>
    intro m r hk
    obtain ⟨ra, hra⟩ := h r
    rw [makeRequest_429_exhausted env m r ra hra (by omega)]
  | succ n ih =>
    intro m r hk
    obtain ⟨ra, hra⟩ := h r
    by_cases hlt : r < m
    · rw [makeRequest_429_retry env m r ra hra hlt]
      exact ih m (r + 1) (by omega)
    · rw [makeRequest_429_exhausted env m r ra hra hlt]

/-- C4: on an HTTP 429 the adapter reads the `Retry-After` duration
(default 60 when the header is absent); with retries remaining it sleeps
that long and retries the same request; with the ceiling exhausted it
raises `TwilioRateLimitError` (never the generic `TwilioAPIError`), and
a request whose every attempt is rate-limited ends in
`TwilioRateLimitError`. -/
theorem rate_limit_retry_then_rate_limit_error :
    (∀ (env : Nat → HttpResult) (m r : Nat) (ra : Option Nat),
      env r = HttpResult.resp 429 ra →
      (r < m → makeRequest env m r =
        ((makeRequest env m (r + 1)).1,
          ra.getD 60 :: (makeRequest env m (r + 1)).2)) ∧
      (¬ r < m → makeRequest env m r = (ReqOutcome.rateLimitErr, []))) ∧
    (∀ env : Nat → HttpResult,
      (∀ i, ∃ ra, env i = HttpResult.resp 429 ra) →
      (makeRequest env defaultMaxRetries 0).1 = ReqOutcome.rateLimitErr) := by
  constructor
  · intro env m r ra henv
    exact ⟨fun h => makeRequest_429_retry env m r ra henv h,
      fun h => makeRequest_429_exhausted env m r ra henv h⟩
  · intro env h
    exact makeRequest_all429_aux env h (defaultMaxRetries + 1)
      defaultMaxRetries 0 (by omega)

/-- Witness for C4: a 429 answer with `Retry-After: 2` makes the first
sleep 2; a 429 answer without the header makes it 60; an all-429 run
ends in the rate-limit fault. -/
theorem rate_limit_retry_witness :
    (makeRequest (fun _ => HttpResult.resp 429 (some 2)) 3 0).2.head? =
      some 2 ∧
    (makeRequest (fun _ => HttpResult.resp 429 none) 3 0).2.head? =
      some 60 ∧
    (makeRequest (fun _ => HttpResult.resp 429 (some 2))
        defaultMaxRetries 0).1 = ReqOutcome.rateLimitErr := by
  refine ⟨?_, ?_, ?_⟩
  · rw [(rate_limit_retry_then_rate_limit_error.1
      (fun _ => HttpResult.resp 429 (some 2)) 3 0 (some 2) rfl).1 (by omega)]
    rfl
  · rw [(rate_limit_retry_then_rate_limit_error.1
      (fun _ => HttpResult.resp 429 none) 3 0 none rfl).1 (by omega)]
    rfl
  · exact rate_limit_retry_then_rate_limit_error.2
      (fun _ => HttpResult.resp 429 (some 2)) (fun _ => ⟨some 2, rfl⟩)

/-- C5: on a network-level error the adapter retries with exponential
backoff, the delay `2 ^ retry_count` doubling per attempt, up to the
retry ceiling (`max_retries`, 3 by default); past the ceiling it raises
the permanent `TwilioAPIError`.  A run whose every attempt is a network
error under the default ceiling sleeps exactly 1, 2, 4 and then fails
with `TwilioAPIError`. -/
theorem network_error_backoff_then_api_error :
    (∀ (env : Nat → HttpResult) (m r : Nat) (msg : String),
      env r = HttpResult.netErr msg →
      (r < m → makeRequest env m r =
        ((makeRequest env m (r + 1)).1,
          2 ^ r :: (makeRequest env m (r + 1)).2)) ∧
      (¬ r < m → makeRequest env m r = (ReqOutcome.apiErr, []))) ∧
    (∀ (env : Nat → HttpResult) (msgs : Nat → String),
      (∀ i, env i = HttpResult.netErr (msgs i)) →
      makeRequest env defaultMaxRetries 0 = (ReqOutcome.apiErr, [1, 2, 4])) := by
  constructor
  · intro env m r msg henv
    exact ⟨fun h => makeRequest_netErr_retry env m r msg henv h,
      fun h => makeRequest_netErr_exhausted env m r msg henv h⟩
  · intro env msgs h
    have e3 : makeRequest env defaultMaxRetries 3 = (ReqOutcome.apiErr, []) :=
      makeRequest_netErr_exhausted env defaultMaxRetries 3 (msgs 3) (h 3)
        (by simp [defaultMaxRetries])
    have e2 : makeRequest env defaultMaxRetries 2 = (ReqOutcome.apiErr, [4]) := by
      rw [makeRequest_netErr_retry env defaultMaxRetries 2 (msgs 2) (h 2)
        (by simp [defaultMaxRetries]), e3]
      rfl
    have e1 : makeRequest env defaultMaxRetries 1 =
        (ReqOutcome.apiErr, [2, 4]) := by
      rw [makeRequest_netErr_retry env defaultMaxRetries 1 (msgs 1) (h 1)
        (by simp [defaultMaxRetries]), e2]
      rfl
    rw [makeRequest_netErr_retry env defaultMaxRetries 0 (msgs 0) (h 0)
      (by simp [defaultMaxRetries]), e1]
    rfl

/-- Witness for C5: three straight connection timeouts sleep 1, 2, 4 and
end in the permanent fault. -/
theorem network_error_backoff_witness :
    makeRequest (fun _ => HttpResult.netErr "timeout") defaultMaxRetries 0 =
      (ReqOutcome.apiErr, [1, 2, 4]) :=
  network_error_backoff_then_api_error.2
    (fun _ => HttpResult.netErr "timeout") (fun _ => "timeout") (fun _ => rfl)

/-- C1 (code bug): a `TwilioRateLimitError` during the live search is
answered with HTTP 400, not 429 — the `except TwilioAPIError` clause
precedes `except TwilioRateLimitError` and, the latter being a subclass
of the former, the 429 clause is unreachable: every fault is answered
with 400 or 500, never 429. -/
theorem search_numbers_rate_limit_answered_400 :
    searchNumbersErrorStatus (SearchFault.rateLimitError
      "Rate limit exceeded after 3 retries") = 400 ∧
    searchNumbersErrorStatus (SearchFault.apiError "API error: 404") = 400 ∧
    searchNumbersErrorStatus (SearchFault.otherError "boom") = 500 ∧
    ∀ f : SearchFault, searchNumbersErrorStatus f = 400 ∨
      searchNumbersErrorStatus f = 500 := by
  refine ⟨rfl, rfl, rfl, ?_⟩
  intro f
  cases f <;> simp [searchNumbersErrorStatus, SearchFault.isTwilioAPIError,
    SearchFault.isTwilioRateLimitError]

/-- The worker `process_country` contributes nothing exactly when its input
fails. -/
theorem process_country_isNone_iff_fails (i : CountryFetchInput) :
    (process_country i.country_code i.fetch).isNone = i.fails := by
  obtain ⟨cc, f⟩ := i
  cases cc with
  | none => rfl
  | some s =>
    cases f with
    | error e =>
      by_cases hs : s = "" <;>
        simp [process_country, CountryFetchInput.fails, hs]
    | ok d =>
      by_cases hs : s = "" <;>
        simp [process_country, CountryFetchInput.fails, hs]

/-- The fan-out of the number-type sync keeps one entry per non-failing
worker. -/
theorem filterMap_process_country_length (l : List CountryFetchInput) :
    (l.filterMap fun i => process_country i.country_code i.fetch).length =
      l.length - l.countP CountryFetchInput.fails := by
  induction l with
  | nil => rfl
  | cons a l ih =>
    have hle : l.countP CountryFetchInput.fails ≤ l.length :=
      List.countP_le_length _
    cases h : process_country a.country_code a.fetch with
    | none =>
      have hf : a.fails = true := by
        have h2 := process_country_isNone_iff_fails a
        rw [h] at h2
        simpa using h2.symm
      simp [List.filterMap_cons, h, hf, List.countP_cons, ih]
    | some v =>
      have hf : a.fails = false := by
        have h2 := process_country_isNone_iff_fails a
        rw [h] at h2
        simpa using h2.symm
      simp [List.filterMap_cons, h, hf, List.countP_cons, ih]
      omega

/-- The same count through the shape `sync_twilio_number_types` builds:
a `map` of the workers followed by the `None`/exception filter. -/
theorem valid_results_length (l : List CountryFetchInput) :
    ((l.map fun i => process_country i.country_code i.fetch).filterMap
      id).length = l.length - l.countP CountryFetchInput.fails := by
  rw [List.filterMap_map]
  simpa [Function.comp] using filterMap_process_country_length l

/-- C2 (amended): for the number-type sync the aggregate has exactly
`N − K` entries and `countries_processed = N − K`; for the regulation
sync `countries_processed` is `N`, the full enumeration count,
whatever `K` is. -/
theorem fan_out_aggregate_and_processed_counts :
    (∀ inputs : List CountryFetchInput,
      ∃ agg : List CountryData,
        (sync_twilio_number_types (Except.ok inputs)).1 = Except.ok agg ∧
        agg.length = inputs.length - inputs.countP CountryFetchInput.fails ∧
        (sync_twilio_number_types (Except.ok inputs)).2.countries_processed =
          inputs.length - inputs.countP CountryFetchInput.fails) ∧
    (∀ inputs : List RegulationFetchInput,
      (sync_twilio_regulations (Except.ok inputs)).2.countries_processed =
        inputs.length) := by
  constructor
  · intro inputs
    exact ⟨_, rfl, valid_results_length inputs, valid_results_length inputs⟩
  · intro inputs
    rfl

/-- C2 counterexample: in a regulation sync over two countries of which
one worker fails, `countries_processed` is 2 (the enumeration count),
not `N − K = 1` as the claim states. -/
theorem regulation_sync_counts_failed_countries :
    regCexInputs.length = 2 ∧
    regCexInputs.countP RegulationFetchInput.fails = 1 ∧
    (sync_twilio_regulations
      (Except.ok regCexInputs)).2.countries_processed = 2 ∧
    ¬ (sync_twilio_regulations
        (Except.ok regCexInputs)).2.countries_processed =
      regCexInputs.length - regCexInputs.countP RegulationFetchInput.fails := by
  refine ⟨rfl, by decide, rfl, by decide⟩

/-- C3 counterexample: when the sync task succeeds (and its `finally`
`client.close()` succeeds), returns non-empty data and the database
upsert then raises, the job's status is assigned `in_progress`, then
the terminal `completed`, then `failed`: the wrapper `run_sync_task`
re-writes a terminal status.  The same downgrade happens inside the
task itself when `client.close()` raises after `completed` was set. -/
theorem completed_job_later_marked_failed :
    runSyncTaskStatusTrace true true true false =
      [JobStatus.in_progress, JobStatus.completed, JobStatus.failed] ∧
    hasTransition (runSyncTaskStatusTrace true true true false)
      JobStatus.completed JobStatus.failed = true ∧
    runSyncTaskStatusTrace true false true true =
      [JobStatus.in_progress, JobStatus.completed, JobStatus.failed,
        JobStatus.failed] ∧
    hasTransition (runSyncTaskStatusTrace true false true true)
      JobStatus.completed JobStatus.failed = true :=
  ⟨rfl, rfl, rfl, rfl⟩

/-- C3 (amended): every run starts `in_progress`; the only status
changes are `in_progress → completed`, `in_progress → failed` and
`completed → failed` (plus the wrapper's idempotent `failed → failed`
re-assignment after the task re-raises); the downgrade
`completed → failed` happens exactly when the task reached `completed`
and then either its `finally` `client.close()` raised (the task's own
`except` downgrades it) or the wrapper's subsequent upsert raised; a
failed job is never moved back to completed or in-progress. -/
theorem sync_job_status_machine :
    ∀ taskOk closeOk dataNonempty upsertOk : Bool,
      (runSyncTaskStatusTrace taskOk closeOk dataNonempty upsertOk).head? =
        some JobStatus.in_progress ∧
      validTransitions
        (runSyncTaskStatusTrace taskOk closeOk dataNonempty upsertOk) =
        true ∧
      hasTransition (runSyncTaskStatusTrace taskOk closeOk dataNonempty upsertOk)
        JobStatus.completed JobStatus.failed =
        (taskOk && (!closeOk || dataNonempty && !upsertOk)) ∧
      hasTransition (runSyncTaskStatusTrace taskOk closeOk dataNonempty upsertOk)
        JobStatus.failed JobStatus.completed = false ∧
      hasTransition (runSyncTaskStatusTrace taskOk closeOk dataNonempty upsertOk)
        JobStatus.failed JobStatus.in_progress = false ∧
      hasTransition (runSyncTaskStatusTrace taskOk closeOk dataNonempty upsertOk)
        JobStatus.completed JobStatus.in_progress = false := by
  decide

/-- C7: an empty regulation batch issues no write; every record without
a (truthy) `sid` is dropped while the surviving records' row values are
written, in order — and nothing else; the dropped records cause no
batch-wide failure (the writer has no failing outcome at all: it either
writes the surviving rows or skips the write). -/
theorem upsert_regulations_empty_noop_and_drops_sidless :
    upsert_regulations_to_db [] = none ∧
    (∀ batch : List RegUpsertDict,
      (upsert_regulations_to_db batch).getD [] =
        batch.filterMap regRowValues) ∧
    (∀ reg : RegUpsertDict,
      (regRowValues reg).isSome = reg.hasIdentifier) := by
  refine ⟨rfl, ?_, ?_⟩
  · intro batch
    by_cases hb : batch.isEmpty
    · rw [List.isEmpty_iff] at hb
      subst hb
      rfl
    · by_cases hv : (batch.filterMap regRowValues).isEmpty
      · rw [upsert_regulations_to_db, if_neg hb, if_pos hv]
        rw [List.isEmpty_iff] at hv
        simp [hv]
      · rw [upsert_regulations_to_db, if_neg hb, if_neg hv]
        rfl
  · intro reg
    rcases hs : reg.sid with _ | s
    · simp [regRowValues, RegUpsertDict.hasIdentifier, hs]
    · by_cases he : s = "" <;>
        simp [regRowValues, RegUpsertDict.hasIdentifier, hs, he]

/-- A country dict missing some key makes `countryRowValues` raise the
first missing key's `KeyError`. -/
theorem countryRowValues_error_of_incomplete (c : CountryDict)
    (h : c.complete = false) :
    ∃ k, countryRowValues c = Except.error k := by
  rcases c with ⟨f1, f2, f3, f4, f5, f6, f7, f8, f9, f10⟩
  cases f1 with
  | none => exact ⟨"country_code", rfl⟩
  | some v1 =>
  cases f2 with
  | none => exact ⟨"country", rfl⟩
  | some v2 =>
  cases f3 with
  | none => exact ⟨"beta", rfl⟩
  | some v3 =>
  cases f4 with
  | none => exact ⟨"local", rfl⟩
  | some v4 =>
  cases f5 with
  | none => exact ⟨"toll_free", rfl⟩
  | some v5 =>
  cases f6 with
  | none => exact ⟨"mobile", rfl⟩
  | some v6 =>
  cases f7 with
  | none => exact ⟨"national", rfl⟩
  | some v7 =>
  cases f8 with
  | none => exact ⟨"voip", rfl⟩
  | some v8 =>
  cases f9 with
  | none => exact ⟨"shared_cost", rfl⟩
  | some v9 =>
  cases f10 with
  | none => exact ⟨"machine_to_machine", rfl⟩
  | some v10 => simp [CountryDict.complete] at h

/-- A complete country dict yields its row values. -/
theorem countryRowValues_ok_of_complete (c : CountryDict)
    (h : c.complete = true) :
    ∃ v, countryRowValues c = Except.ok v := by
  rcases c with ⟨f1, f2, f3, f4, f5, f6, f7, f8, f9, f10⟩
  cases f1 with
  | none => simp [CountryDict.complete] at h
  | some v1 =>
  cases f2 with
  | none => simp [CountryDict.complete] at h
  | some v2 =>
  cases f3 with
  | none => simp [CountryDict.complete] at h
  | some v3 =>
  cases f4 with
  | none => simp [CountryDict.complete] at h
  | some v4 =>
  cases f5 with
  | none => simp [CountryDict.complete] at h
  | some v5 =>
  cases f6 with
  | none => simp [CountryDict.complete] at h
  | some v6 =>
  cases f7 with
  | none => simp [CountryDict.complete] at h
  | some v7 =>
  cases f8 with
  | none => simp [CountryDict.complete] at h
  | some v8 =>
  cases f9 with
  | none => simp [CountryDict.complete] at h
  | some v9 =>
  cases f10 with
  | none => simp [CountryDict.complete] at h
  | some v10 => exact ⟨_, rfl⟩

/-- The writer's loop succeeds on a batch of complete dicts. -/
theorem collectCountryValues_ok (l : List CountryDict)
    (h : ∀ c ∈ l, c.complete = true) :
    ∃ vs, collectCountryValues l = Except.ok vs := by
  induction l with
  | nil => exact ⟨[], rfl⟩
  | cons a l ih =>
    obtain ⟨v, hv⟩ := countryRowValues_ok_of_complete a (h a (by simp))
    obtain ⟨vs, hvs⟩ := ih fun c hc => h c (by simp [hc])
    exact ⟨v :: vs, by simp [collectCountryValues, hv, hvs]⟩

/-- The writer's loop raises a `KeyError` when any record of the batch
is incomplete. -/
theorem collectCountryValues_error (l : List CountryDict)
    (c : CountryDict) (hc : c ∈ l) (h : c.complete = false) :
    ∃ k, collectCountryValues l = Except.error k := by
  induction l with
  | nil => cases hc
  | cons a l ih =>
    rcases List.mem_cons.mp hc with rfl | hmem
    · obtain ⟨k, hk⟩ := countryRowValues_error_of_incomplete c h
      exact ⟨k, by simp [collectCountryValues, hk]⟩
    · cases hv : countryRowValues a with
      | error k => exact ⟨k, by simp [collectCountryValues, hv]⟩
      | ok v =>
        obtain ⟨k, hk⟩ := ih hmem
        exact ⟨k, by simp [collectCountryValues, hv, hk]⟩

/-- C10: the country upsert, unlike the regulation upsert, tolerates no
incomplete record: an empty batch issues no write; a non-empty batch
containing a record that lacks any required key raises `KeyError` and
writes nothing; a batch of complete records is written. -/
theorem upsert_countries_all_keys_or_key_error :
    upsert_countries_to_db [] = Except.ok none ∧
    (∀ batch : List CountryDict, batch ≠ [] →
      ((∃ c ∈ batch, c.complete = false) →
        ∃ k, upsert_countries_to_db batch = Except.error k) ∧
      ((∀ c ∈ batch, c.complete = true) →
        ∃ rows, upsert_countries_to_db batch = Except.ok (some rows))) := by
  refine ⟨rfl, ?_⟩
  intro batch hne
  have hb : batch.isEmpty = false := by
    cases batch with
    | nil => cases hne rfl
    | cons a l => rfl
  constructor
  · rintro ⟨c, hc, hfalse⟩
    obtain ⟨k, hk⟩ := collectCountryValues_error batch c hc hfalse
    exact ⟨k, by rw [upsert_countries_to_db, if_neg (by simp [hb]), hk]; rfl⟩
  · intro h
    obtain ⟨vs, hvs⟩ := collectCountryValues_ok batch h
    exact ⟨vs, by rw [upsert_countries_to_db, if_neg (by simp [hb]), hvs]; rfl⟩

/-- Witness for C10: a batch containing a dict without the `beta` key
raises a `KeyError`; a batch of one complete dict is written; the empty
batch is a no-op. -/
theorem upsert_countries_witness :
    (∃ k, upsert_countries_to_db [goodCountryDict, badCountryDict] =
      Except.error k) ∧
    (∃ rows, upsert_countries_to_db [goodCountryDict] =
      Except.ok (some rows)) ∧
    upsert_countries_to_db [] = Except.ok none := by
  refine ⟨?_, ?_, upsert_countries_all_keys_or_key_error.1⟩
  · exact (upsert_countries_all_keys_or_key_error.2
      [goodCountryDict, badCountryDict] (by simp)).1
      ⟨badCountryDict, by simp, rfl⟩
  · refine (upsert_countries_all_keys_or_key_error.2
      [goodCountryDict] (by simp)).2 ?_
    intro c hc
    rw [List.mem_singleton.mp hc]
    rfl

/-- Repeated `extend` in a loop is a left fold of appends. -/
theorem foldl_append_eq_join {α : Type} (ls : List (List α))
    (acc : List α) : ls.foldl (· ++ ·) acc = acc ++ ls.flatten := by
  induction ls generalizing acc with
  | nil => simp
  | cons a ls ih => simp [List.foldl_cons, ih]

/-- Every dict the regulation worker emits carries
`end_user_type = "business"`. -/
theorem process_country_regulations_business (cc : Option String)
    (fetch : Except String (List RawRegulation)) (d : RegUpsertDict)
    (hd : d ∈ process_country_regulations cc fetch) :
    d.end_user_type = some "business" := by
  cases cc with
  | none => simp [process_country_regulations] at hd
  | some s =>
    by_cases hs : s = ""
    · simp [process_country_regulations, hs] at hd
    · cases fetch with
      | error e => simp [process_country_regulations, hs] at hd
      | ok regs =>
        simp [process_country_regulations, hs] at hd
        obtain ⟨raw, _, rfl⟩ := hd
        rfl

/-- C8: the outbound regulation query pins `EndUserType` to
`"business"` whatever the caller passes (the method exposes no
end-user-type argument at all), and every regulation record the
regulation sync hands to the upsert carries
`end_user_type = "business"`. -/
theorem end_user_type_always_business :
    (∀ (cc : String) (nt : Option String) (ic : Bool),
      (list_regulations_params cc nt ic).lookup "EndUserType" =
        some "business") ∧
    (∀ (inputs : List RegulationFetchInput) (regs : List RegUpsertDict),
      (sync_twilio_regulations (Except.ok inputs)).1 = Except.ok regs →
      ∀ d ∈ regs, d.end_user_type = some "business") := by
  constructor
  · intro cc nt ic
    cases nt <;> rfl
  · intro inputs regs hregs d hd
    simp only [sync_twilio_regulations, Except.ok.injEq] at hregs
    rw [← hregs, foldl_append_eq_join] at hd
    simp only [List.nil_append, List.mem_flatten] at hd
    obtain ⟨s, hs, hds⟩ := hd
    simp only [List.mem_map] at hs
    obtain ⟨i, _, rfl⟩ := hs
    exact process_country_regulations_business i.country_code i.fetch d hds

/-- Witness for C8: concrete parameter dict and a concrete sync run of
one country with one regulation. -/
theorem end_user_type_business_witness :
    (list_regulations_params "US" (some "mobile") false).lookup
      "EndUserType" = some "business" ∧
    goodRegDict.end_user_type = some "business" := by
  refine ⟨end_user_type_always_business.1 "US" (some "mobile") false, ?_⟩
  exact end_user_type_always_business.2
    [{ country_code := some "CA", fetch := Except.ok [rawRegCA] }]
    [goodRegDict] rfl goodRegDict (by simp)

/-- Enumeration over a complete linked chain of pages concatenates the
pages' items in page order. -/
theorem list_countries_mkLinkedPages (chunks : List (List String))
    (h : chunks ≠ []) :
    list_countries (mkLinkedPages chunks) = Except.ok chunks.flatten := by
  induction chunks with
  | nil => cases h rfl
  | cons c rest ih =>
    cases rest with
    | nil => simp [mkLinkedPages, list_countries]
    | cons c2 rest2 =>
      have h2 := ih (by simp)
      simp [mkLinkedPages, list_countries, h2, Except.map]

/-- Enumeration hitting a failing page fetch fails as a whole, with no
partial result. -/
theorem list_countries_mkPagesThenFail (chunks : List (List String))
    (e : String) :
    list_countries (mkPagesThenFail chunks e) = Except.error e := by
  induction chunks with
  | nil => rfl
  | cons c rest ih =>
    simp [mkPagesThenFail, list_countries, Except.map] at ih ⊢
    rw [ih]

/-- C9: `list_countries` follows the `next_page_uri` pointer until it is
absent and returns the concatenation of the pages' items in arrival
order; three linked pages of 2, 2 and 1 items yield exactly those 5
items in page order; a failing page fetch fails the whole enumeration
with no partial result. -/
theorem list_countries_pagination :
    (∀ chunks : List (List String), chunks ≠ [] →
      list_countries (mkLinkedPages chunks) = Except.ok chunks.flatten) ∧
    (∀ (chunks : List (List String)) (e : String),
      list_countries (mkPagesThenFail chunks e) = Except.error e) ∧
    list_countries (mkLinkedPages [["AC", "AD"], ["AE", "AF"], ["AG"]]) =
      Except.ok ["AC", "AD", "AE", "AF", "AG"] :=
  ⟨list_countries_mkLinkedPages, list_countries_mkPagesThenFail, rfl⟩

/-- Witness for C9: a two-page chain concatenates; a chain ending in a
failed fetch propagates the error. -/
theorem list_countries_pagination_witness :
    list_countries (mkLinkedPages [["US"], ["CA"]]) =
      Except.ok [["US"], ["CA"]].flatten ∧
    list_countries (mkPagesThenFail [["US"]] "HTTP 500") =
      Except.error "HTTP 500" :=
  ⟨list_countries_pagination.1 [["US"], ["CA"]] (by simp),
   list_countries_pagination.2.1 [["US"]] "HTTP 500"⟩

/-- C6: with `only_available_types=true` and a stored availability row
whose only set type flag is `mobile`, the query returns exactly the
country's stored business regulations whose `number_type` is
`"mobile"` or unset; with no stored availability row it falls back to
all of the country's stored business regulations, unfiltered by
type. -/
theorem regulations_only_available_types_mobile_or_fallback :
    (∀ (db : List RegulationRow) (rows : List CountryNumberTypesRow)
        (code : String) (ct : CountryNumberTypesRow),
      rows.find? (fun c => c.country_code == strUpper code) = some ct →
      ct.mobile = true → ct.local_ = false → ct.toll_free = false →
      ct.national = false → ct.voip = false → ct.shared_cost = false →
      ct.machine_to_machine = false →
      get_regulations db rows code none true =
        db.filter fun r =>
          r.iso_country == some (strUpper code) &&
          r.end_user_type == "business" &&
          (r.number_type == some "mobile" || r.number_type == none)) ∧
    (∀ (db : List RegulationRow) (rows : List CountryNumberTypesRow)
        (code : String),
      rows.find? (fun c => c.country_code == strUpper code) = none →
      get_regulations db rows code none true =
        db.filter fun r =>
          r.iso_country == some (strUpper code) &&
          r.end_user_type == "business") := by
  constructor
  · intro db rows code ct hfind hm h1 h2 h3 h4 h5 h6
    have havail : availableNumberTypes ct = ["mobile"] := by
      simp [availableNumberTypes, hm, h1, h2, h3, h4, h5, h6]
    simp only [get_regulations, hfind, havail, List.isEmpty_cons,
      Bool.false_eq_true, if_false, if_true]
    rw [List.filter_filter]
    apply List.filter_congr
    intro r _
    cases hnt : r.number_type with
    | none => simp [regMatchesAvailable, hnt]
    | some t =>
      simp [regMatchesAvailable, hnt, Bool.and_comm]
      rfl
  · intro db rows code hfind
    simp only [get_regulations, hfind, if_true]

/-- Witness for C6: on concrete stored rows for `DE` (a mobile, a
toll-free and a type-unset regulation) with a mobile-only availability
row, the query keeps the mobile and unset rows; with no availability
row, all business rows of the country are kept. -/
theorem regulations_only_available_types_witness :
    get_regulations demoRegulationRows [demoMobileOnlyDE] "de" none true =
      demoRegulationRows.filter (fun r =>
        r.iso_country == some (strUpper "de") &&
        r.end_user_type == "business" &&
        (r.number_type == some "mobile" || r.number_type == none)) ∧
    get_regulations demoRegulationRows [] "de" none true =
      demoRegulationRows.filter fun r =>
        r.iso_country == some (strUpper "de") &&
        r.end_user_type == "business" := by
  constructor
  · exact regulations_only_available_types_mobile_or_fallback.1
      demoRegulationRows [demoMobileOnlyDE] "de" demoMobileOnlyDE rfl
      rfl rfl rfl rfl rfl rfl rfl
  · exact regulations_only_available_types_mobile_or_fallback.2
      demoRegulationRows [] "de" rfl

end TwilioSearch
